import Mathlib

/-!
Verification development for the RevHeat blog engine, centred on the
Quality Gate and structured-content assembly pipeline
(src/content_engine.py and src/schema_builder.py).

The Python code is shallowly embedded: pure text transformations become
Lean functions on List Char / String, the BeautifulSoup document is
represented as a flat list of nodes (anchors and text nodes tagged with
their parent element), and quality-gate messages become an inductive
type whose renderer reproduces the source format strings.
-/

namespace RevHeat

/-- Python str.split() whitespace set: space, tab, newline, carriage
return, vertical tab, form feed. -/
def pyIsSpace (c : Char) : Bool :=
  c = ' ' || c = '\t' || c = '\n' || c = '\r' || c = '\x0b' || c = '\x0c'

/-- ASCII lowercase a character list (Python str.lower on the ASCII
fragment the engine manipulates). -/
def lowerData (cs : List Char) : List Char := cs.map Char.toLower

/-- Lowercase a string. -/
def lowerStr (s : String) : String := String.mk (lowerData s.data)

/-- Python substring membership test (needle in hay). -/
def strContains (hay needle : List Char) : Bool :=
  needle.isPrefixOf hay ||
    match hay with
    | [] => false
    | _ :: t => strContains t needle

/-- Case-insensitive substring test (used where the source compiles a
regex with re.IGNORECASE over an escaped literal). -/
def strContainsCI (hay needle : List Char) : Bool :=
  strContains (lowerData hay) (lowerData needle)

/-- Helper of strCount.  The fuel argument only bounds the recursion
(every step strictly shortens the haystack, so haystack length plus one
is always enough); it never changes the result. -/
def strCountAux : Nat → List Char → List Char → Nat
  | 0, _, _ => 0
  | _, hay, [] => hay.length + 1
  | _ + 1, [], _ :: _ => 0
  | fuel + 1, a :: t, n :: ns =>
    if (n :: ns).isPrefixOf (a :: t) then
      1 + strCountAux fuel (t.drop ns.length) (n :: ns)
    else
      strCountAux fuel t (n :: ns)

/-- Python str.count: number of non-overlapping occurrences, scanning
left to right. -/
def strCount (hay needle : List Char) : Nat := strCountAux (hay.length + 1) hay needle

/-- Split at the first exact occurrence of needle: returns the text
before the occurrence and the text after it (Python str.replace with
count=1 keeps these two pieces around the replacement). -/
def splitFirst : List Char → List Char → Option (List Char × List Char)
  | hay, needle =>
    if needle.isPrefixOf hay then some ([], hay.drop needle.length)
    else
      match hay with
      | [] => none
      | a :: t => (splitFirst t needle).map (fun p => (a :: p.1, p.2))

/-- Case-insensitive prefix test, folding both sides. -/
def isPrefixCI : List Char → List Char → Bool
  | [], _ => true
  | _ :: _, [] => false
  | n :: ns, h :: hs => (n.toLower = h.toLower) && isPrefixCI ns hs

/-- Split at the first case-insensitive occurrence of needle (Python
re.sub with count=1 on an IGNORECASE-escaped literal). -/
def splitFirstCI : List Char → List Char → Option (List Char × List Char)
  | hay, needle =>
    if isPrefixCI needle hay then some ([], hay.drop needle.length)
    else
      match hay with
      | [] => none
      | a :: t => (splitFirstCI t needle).map (fun p => (a :: p.1, p.2))

/-- Helper of pyWords: accumulates the current word reversed. -/
def pyWordsAux : List Char → List Char → List (List Char)
  | [], acc => if acc.isEmpty then [] else [acc.reverse]
  | c :: t, acc =>
    if pyIsSpace c then
      if acc.isEmpty then pyWordsAux t [] else acc.reverse :: pyWordsAux t []
    else pyWordsAux t (c :: acc)

/-- Python str.split() with no argument: split on whitespace runs,
dropping empty pieces. -/
def pyWords (cs : List Char) : List (List Char) := pyWordsAux cs []

/-- Python str.strip(): trim whitespace from both ends. -/
def pyStrip (cs : List Char) : List Char :=
  ((cs.dropWhile pyIsSpace).reverse.dropWhile pyIsSpace).reverse

/-- Helper of splitLines. -/
def splitLinesAux : List Char → List Char → List (List Char)
  | [], acc => [acc.reverse]
  | c :: t, acc =>
    if c = '\n' then acc.reverse :: splitLinesAux t []
    else splitLinesAux t (c :: acc)

/-- Python str.split(chr(10)): split into lines, keeping empty lines,
as used by the TL;DR post-processing and the heading regexes with
re.MULTILINE. -/
def splitLines (cs : List Char) : List (List Char) := splitLinesAux cs []

/-- Join word lists with single spaces (Python chr(32).join). -/
def joinSpace (ws : List (List Char)) : List Char := List.intercalate [' '] ws

/-- dropWhile never lengthens a list (termination helper for the
scanners below). -/
theorem length_dropWhile_le {α : Type} (p : α → Bool) (l : List α) :
    (l.dropWhile p).length ≤ l.length := by
  induction l with
  | nil => simp
  | cons a t ih =>
    rw [List.dropWhile]
    split
    · exact Nat.le_succ_of_le ih
    · simp

/-!
ContentEngine._count_statistics: the four numeric regex patterns,
implemented as left-to-right scanners with the same matching and
resumption behaviour as re.findall (on failure the scan advances one
character; on success it resumes after the match).
-/

/-- Helper of countPct; the fuel argument (list length is enough, every
step strictly shortens the list) only bounds the recursion. -/
def countPctAux : Nat → List Char → Nat
  | 0, _ => 0
  | _, [] => 0
  | fuel + 1, c :: t =>
    if c.isDigit then
      match t.dropWhile Char.isDigit with
      | '%' :: r2 => 1 + countPctAux fuel r2
      | _ => countPctAux fuel t
    else countPctAux fuel t

/-- Matches of the percentage pattern (one or more digits followed by
a percent sign). -/
def countPct (cs : List Char) : Nat := countPctAux cs.length cs

/-- Character class of the currency pattern body: digits, commas, dots. -/
def dollarBody (c : Char) : Bool := c.isDigit || c = ',' || c = '.'

/-- Helper of countDollar; the fuel argument (list length is enough,
every step strictly shortens the list) only bounds the recursion. -/
def countDollarAux : Nat → List Char → Nat
  | 0, _ => 0
  | _, [] => 0
  | fuel + 1, c :: t =>
    if c = '$' then
      if (t.takeWhile dollarBody).isEmpty then countDollarAux fuel t
      else
        match t.dropWhile dollarBody with
        | d :: r2 =>
          if d = 'M' || d = 'B' || d = 'K' then 1 + countDollarAux fuel r2
          else 1 + countDollarAux fuel (d :: r2)
        | [] => 1
    else countDollarAux fuel t

/-- Matches of the currency pattern: dollar sign, one or more of
digits/commas/dots, then an optional M, B or K suffix. -/
def countDollar (cs : List Char) : Nat := countDollarAux cs.length cs

/-- One or more groups of a comma followed by exactly three digits,
consumed greedily; returns the remainder after the last complete group,
or none when not even one group matches. -/
def commaGroups : List Char → Option (List Char)
  | ',' :: d1 :: d2 :: d3 :: r =>
    if d1.isDigit && d2.isDigit && d3.isDigit then
      match commaGroups r with
      | some r2 => some r2
      | none => some r
    else none
  | _ => none

/-- Matches of the comma-grouped integer pattern: one to three digits
followed by at least one comma-plus-three-digits group.  Because the
leading digit part never matches more than three digits, a longer digit
run shifts the scan right until at most three digits remain before the
first comma, exactly as the backtracking regex does. -/
def countCommaAux : Nat → List Char → Nat
  | 0, _ => 0
  | _, [] => 0
  | fuel + 1, c :: t =>
    if c.isDigit then
      if (t.takeWhile Char.isDigit).length ≤ 2 then
        match commaGroups (t.dropWhile Char.isDigit) with
        | some r2 => 1 + countCommaAux fuel r2
        | none => countCommaAux fuel t
      else countCommaAux fuel t
    else countCommaAux fuel t

/-- Entry point of the comma-grouped integer scanner; the fuel argument
(list length is enough, every step strictly shortens the list) only
bounds the recursion. -/
def countComma (cs : List Char) : Nat := countCommaAux cs.length cs

/-- Python regex word character (ASCII fragment). -/
def isWordChar (c : Char) : Bool := c.isAlphanum || c = '_'

/-- Helper of countMult; the fuel argument (list length is enough,
every step strictly shortens the list) only bounds the recursion. -/
def countMultAux : Nat → List Char → Nat
  | 0, _ => 0
  | _, [] => 0
  | fuel + 1, c :: t =>
    if c.isDigit then
      match t.dropWhile Char.isDigit with
      | 'x' :: r2 =>
        if (match r2 with
            | [] => true
            | d :: _ => !isWordChar d) then 1 + countMultAux fuel r2
        else countMultAux fuel t
      | _ => countMultAux fuel t
    else countMultAux fuel t

/-- Matches of the multiplier pattern: one or more digits, a literal
lowercase x, then a word boundary. -/
def countMult (cs : List Char) : Nat := countMultAux cs.length cs

/-- ContentEngine._count_statistics: total matches of the four numeric
patterns over the text, summed with overlaps between patterns allowed. -/
def count_statistics (text : String) : Nat :=
  countPct text.data + countDollar text.data + countComma text.data + countMult text.data

/-!
Heading and link scanners used by ContentEngine.quality_check.
-/

/-- Match of the heading regex (k hashes, a space, then any character
other than a hash — newline included, as [^#] matches it) at the
current position. -/
def matchHeadingAt : Nat → List Char → Bool
  | 0, ' ' :: c :: _ => c != '#'
  | 0, _ => false
  | k + 1, '#' :: t => matchHeadingAt k t
  | _ + 1, _ => false

/-- Helper of countHeadings: scans every position, tracking whether it
is at a line start (re.MULTILINE anchors the pattern there). -/
def countHeadingsAux (k : Nat) : Bool → List Char → Nat
  | _, [] => 0
  | start, c :: t =>
    (if start && matchHeadingAt k (c :: t) then 1 else 0) + countHeadingsAux k (c == '\n') t

/-- Number of level-k headings in the markdown (the h1/h2/h3 count
regexes of quality_check). -/
def countHeadings (k : Nat) (cs : List Char) : Nat := countHeadingsAux k true cs

/-- Helper of headingLevels: at each line start, a run of one to six
hashes followed by a whitespace character yields that run's length.
The fuel argument (list length is enough, every step strictly shortens
the list) only bounds the recursion. -/
def headingLevelsAux : Nat → Bool → List Char → List Nat
  | 0, _, _ => []
  | _, _, [] => []
  | fuel + 1, start, c :: t =>
    if start && c == '#' then
      match t.dropWhile (fun x => x == '#') with
      | w :: r2 =>
        if (t.takeWhile (fun x => x == '#')).length + 1 ≤ 6 && pyIsSpace w then
          ((t.takeWhile (fun x => x == '#')).length + 1) :: headingLevelsAux fuel (w == '\n') r2
        else headingLevelsAux fuel (c == '\n') t
      | [] => headingLevelsAux fuel (c == '\n') t
    else headingLevelsAux fuel (c == '\n') t

/-- Sequence of heading levels in document order (the heading-skip
check's findall over hash runs of length one to six followed by a
whitespace character, anchored at line starts). -/
def headingLevels (cs : List Char) : List Nat := headingLevelsAux cs.length true cs

/-- First heading-level skip: returns (previous level, current level,
one-based heading number of the current heading), scanning adjacent
pairs in order, as the quality gate reports only the first skip. -/
def firstSkipAux : Nat → List Nat → Option (Nat × Nat × Nat)
  | i, p :: c :: rest =>
    if c > p + 1 then some (p, c, i + 2) else firstSkipAux (i + 1) (c :: rest)
  | _, _ => none

/-- First heading-level skip over a level list, starting the index at
zero. -/
def firstHeadingSkip (ls : List Nat) : Option (Nat × Nat × Nat) := firstSkipAux 0 ls

/-- Texts of level-2 headings: lines starting with two hashes and a
space, with a non-empty remainder. -/
def h2Texts (cs : List Char) : List (List Char) :=
  (splitLines cs).filterMap fun l =>
    match l with
    | '#' :: '#' :: ' ' :: rest => if rest.isEmpty then none else some rest
    | _ => none

/-- Match of the anchor-tag regex (open angle, letter a, at least one
whitespace character, then the href attribute name) at the current
position. -/
def matchATag : List Char → Bool
  | '<' :: 'a' :: rest =>
    !(rest.takeWhile pyIsSpace).isEmpty &&
      ['h', 'r', 'e', 'f', '='].isPrefixOf (rest.dropWhile pyIsSpace)
  | _ => false

/-- Helper of countATags. -/
def countATagsAux : List Char → Nat
  | [] => 0
  | c :: t => (if matchATag (c :: t) then 1 else 0) + countATagsAux t

/-- Number of anchor-tag occurrences in the rendered HTML (the internal
link minimum check of quality_check). -/
def countATags (s : String) : Nat := countATagsAux s.data

/-!
Data model: TopicSelection, BlogDraft, QualityResult (content_engine.py
dataclasses), restricted to the fields the verified operations read.
-/

/-- One FAQ question/answer pair. -/
structure FaqItem where
  question : String
  answer : String
  deriving DecidableEq, Repr

/-- One pre-planned internal link from front-matter. -/
structure PlannedLink where
  anchor : String
  target : String
  deriving DecidableEq, Repr

/-- TopicSelection dataclass (fields read by the verified operations). -/
structure TopicSelection where
  topic : String
  primary_keyword : String
  secondary_keywords : List String
  format_type : String
  deriving DecidableEq, Repr

/-- BlogDraft dataclass (fields read by the verified operations). -/
structure BlogDraft where
  title : String
  slug : String
  content_markdown : String
  content_html : String
  key_takeaway : String
  tldr_bullets : List String
  faq_items : List FaqItem
  comparison_table : String
  meta_description : String
  seo_title : String
  word_count : Nat
  planned_internal_links : List PlannedLink
  deriving DecidableEq, Repr

/-- A draft with every field empty, used to build concrete instances. -/
def emptyDraft : BlogDraft :=
  { title := "", slug := "", content_markdown := "", content_html := "",
    key_takeaway := "", tldr_bullets := [], faq_items := [],
    comparison_table := "", meta_description := "", seo_title := "",
    word_count := 0, planned_internal_links := [] }

/-!
Quality Gate messages.  The source appends formatted strings; here each
append site gets one constructor carrying the data interpolated into the
message, and renderFailure reproduces the exact source format string for
the failure messages (the warning messages that interpolate a float with
percent formatting are outside the renderer).
-/

/-- One quality-gate message (failure or warning), tagged with the data
the source interpolates into the corresponding format string. -/
inductive QMsg where
  | missingKeyTakeaway
  | keyTakeawayWords (n : Nat)
  | faqCount (n : Nat)
  | missingTable
  | wordCountLow (n : Nat)
  | wordCountHigh (n : Nat)
  | statDensity (found expected : Nat)
  | tldrCount (n : Nat)
  | metaShort (n : Nat)
  | metaLong (n : Nat)
  | missingH1
  | tooManyH1 (n : Nat)
  | fewH2 (n : Nat)
  | manyH2 (n : Nat)
  | headingSkip (prev curr pos : Nat)
  | kwDensityLow (kw : String) (count : Nat)
  | kwDensityHigh (kw : String) (count : Nat)
  | kwPlacement (missing : List String)
  | seoTitleLong (n : Nat)
  | seoTitleShort (n : Nat)
  | fewInternalLinks (total minimum : Nat)
  deriving DecidableEq, Repr

/-- Exact source text of the failure messages appended by quality_check
(warning constructors render empty here; their float interpolation is
not modelled). -/
def renderFailure : QMsg → String
  | .missingKeyTakeaway => "Missing Key Takeaway block"
  | .faqCount n => "Only " ++ toString n ++ " FAQ items (minimum 5)"
  | .missingTable => "Missing comparison table"
  | .wordCountLow n => "Only " ++ toString n ++ " words (minimum 1200)"
  | .statDensity c e => "Only " ++ toString c ++ " stats found (expected ~" ++ toString e ++ ")"
  | .tldrCount n => "TL;DR has " ++ toString n ++ " bullets (need exactly 4)"
  | .missingH1 => "Missing H1 heading"
  | _ => ""

/-- Is this the TL;DR bullet-count failure message? -/
def QMsg.isTldr : QMsg → Bool
  | .tldrCount _ => true
  | _ => false

/-- Is this the statistic-density failure message? -/
def QMsg.isStat : QMsg → Bool
  | .statDensity _ _ => true
  | _ => false

/-- Is this the combined keyword-placement warning? -/
def QMsg.isPlacement : QMsg → Bool
  | .kwPlacement _ => true
  | _ => false

/-- Is this one of the two keyword-density warnings? -/
def QMsg.isDensity : QMsg → Bool
  | .kwDensityLow _ _ => true
  | .kwDensityHigh _ _ => true
  | _ => false

/-- Result of the quality gate. -/
structure QualityResult where
  passes : Bool
  failures : List QMsg
  warnings : List QMsg
  deriving DecidableEq, Repr

/-!
ContentEngine.quality_check, one definition per append site, concatenated
in the order the source appends.
-/

/-- Key-takeaway failure: empty key takeaway. -/
def ktFailures (d : BlogDraft) : List QMsg :=
  if d.key_takeaway = "" then [.missingKeyTakeaway] else []

/-- Key-takeaway warning: word count outside 40-60. -/
def ktWarnings (d : BlogDraft) : List QMsg :=
  if d.key_takeaway = "" then []
  else
    let n := (pyWords d.key_takeaway.data).length
    if n < 40 || n > 60 then [.keyTakeawayWords n] else []

/-- FAQ failure: fewer than five items. -/
def faqFailures (d : BlogDraft) : List QMsg :=
  if d.faq_items.length < 5 then [.faqCount d.faq_items.length] else []

/-- Comparison-table failure: empty table. -/
def tableFailures (d : BlogDraft) : List QMsg :=
  if d.comparison_table = "" then [.missingTable] else []

/-- Word-count failure: below 1200. -/
def wcFailures (d : BlogDraft) : List QMsg :=
  if d.word_count < 1200 then [.wordCountLow d.word_count] else []

/-- Word-count warning: above 2000. -/
def wcWarnings (d : BlogDraft) : List QMsg :=
  if d.word_count > 2000 then [.wordCountHigh d.word_count] else []

/-- Statistic-density failure: fewer statistics than word_count divided
by 175 (integer division). -/
def statFailures (d : BlogDraft) : List QMsg :=
  if count_statistics d.content_markdown < d.word_count / 175 then
    [.statDensity (count_statistics d.content_markdown) (d.word_count / 175)]
  else []

/-- TL;DR failure: bullet count differs from four. -/
def tldrFailures (d : BlogDraft) : List QMsg :=
  if d.tldr_bullets.length ≠ 4 then [.tldrCount d.tldr_bullets.length] else []

/-- Meta-description warning: length outside 140-170 (only when a meta
description is present). -/
def metaWarnings (d : BlogDraft) : List QMsg :=
  if d.meta_description = "" then []
  else
    let n := d.meta_description.length
    if n < 140 then [.metaShort n]
    else if n > 170 then [.metaLong n]
    else []

/-- Heading failure: no level-1 heading. -/
def h1Failures (d : BlogDraft) : List QMsg :=
  if countHeadings 1 d.content_markdown.data = 0 then [.missingH1] else []

/-- Heading warning: more than one level-1 heading. -/
def h1Warnings (d : BlogDraft) : List QMsg :=
  let n := countHeadings 1 d.content_markdown.data
  if n > 1 then [.tooManyH1 n] else []

/-- Heading warnings: fewer than five or more than ten level-2
headings. -/
def h2Warnings (d : BlogDraft) : List QMsg :=
  let n := countHeadings 2 d.content_markdown.data
  if n < 5 then [.fewH2 n]
  else if n > 10 then [.manyH2 n]
  else []

/-- Heading warning: first heading-level skip in document order. -/
def skipWarnings (d : BlogDraft) : List QMsg :=
  match firstHeadingSkip (headingLevels d.content_markdown.data) with
  | some (p, c, i) => [.headingSkip p c i]
  | none => []

/-- The list of placement locations the keyword is missing from, built
in source order.  The meta-description entry is only considered when the
meta description is non-empty, and the FAQ entry only when the FAQ list
is non-empty, exactly as the source guards them.  kw is the lowercased
primary keyword. -/
def missingPlacements (d : BlogDraft) (kw : List Char) : List String :=
  (if strContains (lowerData (joinSpace ((pyWords d.content_markdown.data).take 100))) kw
   then [] else ["first 100 words"]) ++
  (if (h2Texts d.content_markdown.data).any (fun h => strContains (lowerData h) kw)
   then [] else ["H2 heading"]) ++
  (if d.meta_description != "" && !(strContains (lowerData d.meta_description.data) kw)
   then ["meta description"] else []) ++
  (if !d.faq_items.isEmpty &&
      !(strContains (joinSpace (d.faq_items.map (fun q => lowerData q.question.data))) kw)
   then ["FAQ question"] else [])

/-- Keyword density and placement warnings, gated on a topic with a
non-empty primary keyword.  The density comparison against the 0.5 and
2.0 percent thresholds is expressed in exact integer arithmetic:
density < 0.5 iff 200*(count*kwWords) < word_count, density > 2.0 iff
50*(count*kwWords) > word_count (the source computes the float
(count*kwWords)/word_count*100). -/
def kwWarnings (d : BlogDraft) (topic : Option TopicSelection) : List QMsg :=
  match topic with
  | none => []
  | some t =>
    if t.primary_keyword = "" then []
    else
      let kw := lowerData t.primary_keyword.data
      let kwCount := strCount (lowerData d.content_markdown.data) kw
      let kwWords := (pyWords kw).length
      let densityW :=
        if d.word_count > 0 then
          if 200 * (kwCount * kwWords) < d.word_count then
            [QMsg.kwDensityLow (String.mk kw) kwCount]
          else if 50 * (kwCount * kwWords) > d.word_count then
            [QMsg.kwDensityHigh (String.mk kw) kwCount]
          else []
        else []
      let miss := missingPlacements d kw
      densityW ++ (if miss.isEmpty then [] else [QMsg.kwPlacement miss])

/-- SEO-title warnings: longer than 65 or shorter than 30 characters
(only when an SEO title is present). -/
def seoWarnings (d : BlogDraft) : List QMsg :=
  if d.seo_title = "" then []
  else
    let n := d.seo_title.length
    if n > 65 then [.seoTitleLong n]
    else if n < 30 then [.seoTitleShort n]
    else []

/-- Internal-link warning: anchor tags in the HTML plus planned links
below the configured minimum (config default 3). -/
def linkWarnings (d : BlogDraft) : List QMsg :=
  let total := countATags d.content_html + d.planned_internal_links.length
  if total < 3 then [.fewInternalLinks total 3] else []

/-- The failures list of quality_check: every check contributes
independently, concatenated in source append order. -/
def qcFailures (d : BlogDraft) : List QMsg :=
  ktFailures d ++ faqFailures d ++ tableFailures d ++ wcFailures d ++
    statFailures d ++ tldrFailures d ++ h1Failures d

/-- The warnings list of quality_check, concatenated in source append
order. -/
def qcWarnings (d : BlogDraft) (topic : Option TopicSelection) : List QMsg :=
  ktWarnings d ++ wcWarnings d ++ metaWarnings d ++ h1Warnings d ++
    h2Warnings d ++ skipWarnings d ++ kwWarnings d topic ++ seoWarnings d ++ linkWarnings d

/-- ContentEngine.quality_check: every rubric check contributes its
messages independently (no short-circuiting); passes is the emptiness
test on the failures list, warnings never enter it. -/
def quality_check (d : BlogDraft) (topic : Option TopicSelection) : QualityResult :=
  { passes := (qcFailures d).length == 0,
    failures := qcFailures d,
    warnings := qcWarnings d topic }

@[simp] theorem quality_check_failures (d : BlogDraft) (t : Option TopicSelection) :
    (quality_check d t).failures = qcFailures d := rfl

@[simp] theorem quality_check_warnings (d : BlogDraft) (t : Option TopicSelection) :
    (quality_check d t).warnings = qcWarnings d t := rfl

@[simp] theorem quality_check_passes (d : BlogDraft) (t : Option TopicSelection) :
    (quality_check d t).passes = ((qcFailures d).length == 0) := rfl

/-!
ContentEngine._parse_draft TL;DR extraction — the regex
(?:TL;DR|TLDR).*?chr(10)((?:[-*]\s+.+chr(10)){1,6}) with IGNORECASE.
The scan tries each position left to right; a match needs the literal,
the rest of that line, then one to six bullet lines taken greedily.
In this model the whitespace after a bullet marker is within-line
whitespace (the regex's \s can also swallow a newline in exotic inputs,
which this embedding does not chase). -/

/-- Bullet marker characters. -/
def isBulletCharC (c : Char) : Bool := c = '-' || c = '*'

/-- Within-line whitespace. -/
def isInlineWs (c : Char) : Bool := pyIsSpace c && c != '\n'

/-- Parse one bullet line: marker, at least one whitespace character, at
least one content character, then the newline.  Returns the matched line
(without the newline) and the remainder after the newline. -/
def parseBulletLine : List Char → Option (List Char × List Char)
  | [] => none
  | b :: r =>
    if isBulletCharC b then
      let ws := r.takeWhile isInlineWs
      if ws.isEmpty then none
      else
        let r2 := r.dropWhile isInlineWs
        let content := r2.takeWhile (fun c => c != '\n')
        if content.isEmpty then none
        else
          match r2.drop content.length with
          | '\n' :: r3 => some (b :: (ws ++ content), r3)
          | _ => none
    else none

/-- Greedily parse up to n bullet lines. -/
def parseBullets : Nat → List Char → List (List Char) × List Char
  | 0, cs => ([], cs)
  | n + 1, cs =>
    match parseBulletLine cs with
    | some (line, rest) =>
      let p := parseBullets n rest
      (line :: p.1, p.2)
    | none => ([], cs)

/-- Match the TL;DR literal (alternation TL;DR, then TLDR) at the
current position, case-insensitively. -/
def matchTldrLit (cs : List Char) : Option (List Char) :=
  if isPrefixCI ['t', 'l', ';', 'd', 'r'] cs then some (cs.drop 5)
  else if isPrefixCI ['t', 'l', 'd', 'r'] cs then some (cs.drop 4)
  else none

/-- Try the whole TL;DR pattern at the current position: literal, lazy
skip to the first newline, then one to six bullet lines (at least one
required). -/
def tldrBulletsAt (cs : List Char) : Option (List (List Char)) :=
  match matchTldrLit cs with
  | none => none
  | some rest =>
    match rest.dropWhile (fun c => c != '\n') with
    | '\n' :: r2 =>
      match parseBullets 6 r2 with
      | ([], _) => none
      | (lines, _) => some lines
    | _ => none

/-- Python processing of one captured bullet line:
line.strip().lstrip(bullet chars).strip(). -/
def cleanBullet (line : List Char) : String :=
  String.mk (pyStrip ((pyStrip line).dropWhile isBulletCharC))

/-- Scan of re.search: first position where the TL;DR pattern matches
wins; the captured bullet lines are filtered on non-blank stripped text
and cleaned. -/
def extractTldrAux : List Char → List String
  | [] => []
  | c :: t =>
    match tldrBulletsAt (c :: t) with
    | some lines => (lines.filter (fun l => !(pyStrip l).isEmpty)).map cleanBullet
    | none => extractTldrAux t

/-- TL;DR bullet extraction of ContentEngine._parse_draft. -/
def extract_tldr (raw : String) : List String := extractTldrAux raw.data

/-- No case-insensitive occurrence of TLDR (and hence of TL;DR as a
separate literal) anywhere in the text. -/
def noTldrMention (raw : String) : Bool :=
  !(strContainsCI raw.data ['t', 'l', 'd', 'r']) &&
    !(strContainsCI raw.data ['t', 'l', ';', 'd', 'r'])

/-- Follows the claim's words, for refutation: a markdown heading line
(one starting with a hash) containing TL;DR or TLDR case-insensitively. -/
def hasTldrHeading (raw : String) : Bool :=
  (splitLines raw.data).any fun l =>
    (match l with
     | '#' :: _ => true
     | _ => false) &&
      (strContainsCI l ['t', 'l', ';', 'd', 'r'] || strContainsCI l ['t', 'l', 'd', 'r'])

/-!
Shape lemmas: which constructors each quality-gate segment can emit.
-/

theorem mem_ktFailures {d : BlogDraft} {m : QMsg} (hm : m ∈ ktFailures d) :
    m = QMsg.missingKeyTakeaway := by
  unfold ktFailures at hm; split at hm <;> simp_all

theorem mem_faqFailures {d : BlogDraft} {m : QMsg} (hm : m ∈ faqFailures d) :
    ∃ n, m = QMsg.faqCount n := by
  unfold faqFailures at hm; split at hm <;> simp_all

theorem mem_tableFailures {d : BlogDraft} {m : QMsg} (hm : m ∈ tableFailures d) :
    m = QMsg.missingTable := by
  unfold tableFailures at hm; split at hm <;> simp_all

theorem mem_wcFailures {d : BlogDraft} {m : QMsg} (hm : m ∈ wcFailures d) :
    ∃ n, m = QMsg.wordCountLow n := by
  unfold wcFailures at hm; split at hm <;> simp_all

theorem mem_statFailures {d : BlogDraft} {m : QMsg} (hm : m ∈ statFailures d) :
    ∃ a b, m = QMsg.statDensity a b := by
  unfold statFailures at hm; split at hm <;> simp_all

theorem mem_tldrFailures {d : BlogDraft} {m : QMsg} (hm : m ∈ tldrFailures d) :
    ∃ n, m = QMsg.tldrCount n := by
  unfold tldrFailures at hm; split at hm <;> simp_all

theorem mem_h1Failures {d : BlogDraft} {m : QMsg} (hm : m ∈ h1Failures d) :
    m = QMsg.missingH1 := by
  unfold h1Failures at hm; split at hm <;> simp_all

theorem mem_ktWarnings {d : BlogDraft} {m : QMsg} (hm : m ∈ ktWarnings d) :
    ∃ n, m = QMsg.keyTakeawayWords n := by
  unfold ktWarnings at hm
  split at hm
  · simp_all
  · dsimp only at hm
    split at hm <;> simp_all

theorem mem_wcWarnings {d : BlogDraft} {m : QMsg} (hm : m ∈ wcWarnings d) :
    ∃ n, m = QMsg.wordCountHigh n := by
  unfold wcWarnings at hm; split at hm <;> simp_all

theorem mem_metaWarnings {d : BlogDraft} {m : QMsg} (hm : m ∈ metaWarnings d) :
    (∃ n, m = QMsg.metaShort n) ∨ (∃ n, m = QMsg.metaLong n) := by
  unfold metaWarnings at hm
  split at hm
  · simp_all
  · dsimp only at hm
    split at hm
    · simp_all
    · split at hm <;> simp_all

theorem mem_h1Warnings {d : BlogDraft} {m : QMsg} (hm : m ∈ h1Warnings d) :
    ∃ n, m = QMsg.tooManyH1 n := by
  unfold h1Warnings at hm; dsimp only at hm; split at hm <;> simp_all

theorem mem_h2Warnings {d : BlogDraft} {m : QMsg} (hm : m ∈ h2Warnings d) :
    (∃ n, m = QMsg.fewH2 n) ∨ (∃ n, m = QMsg.manyH2 n) := by
  unfold h2Warnings at hm
  dsimp only at hm
  split at hm
  · simp_all
  · split at hm <;> simp_all

theorem mem_skipWarnings {d : BlogDraft} {m : QMsg} (hm : m ∈ skipWarnings d) :
    ∃ p c i, m = QMsg.headingSkip p c i := by
  unfold skipWarnings at hm
  split at hm <;> simp_all

theorem mem_seoWarnings {d : BlogDraft} {m : QMsg} (hm : m ∈ seoWarnings d) :
    (∃ n, m = QMsg.seoTitleLong n) ∨ (∃ n, m = QMsg.seoTitleShort n) := by
  unfold seoWarnings at hm
  split at hm
  · simp_all
  · dsimp only at hm
    split at hm
    · simp_all
    · split at hm <;> simp_all

theorem mem_linkWarnings {d : BlogDraft} {m : QMsg} (hm : m ∈ linkWarnings d) :
    ∃ a b, m = QMsg.fewInternalLinks a b := by
  unfold linkWarnings at hm; dsimp only at hm; split at hm <;> simp_all

theorem mem_kwWarnings {d : BlogDraft} {t : Option TopicSelection} {m : QMsg}
    (hm : m ∈ kwWarnings d t) :
    (∃ kw n, m = QMsg.kwDensityLow kw n ∨ m = QMsg.kwDensityHigh kw n) ∨
      ∃ ms, m = QMsg.kwPlacement ms := by
  unfold kwWarnings at hm
  rcases t with _ | t
  · simp_all
  · simp only at hm
    split at hm
    · simp_all
    · rw [List.mem_append] at hm
      rcases hm with hm | hm
      · split at hm
        · split at hm
          · simp_all
          · split at hm <;> simp_all
        · simp_all
      · split at hm <;> simp_all

/-- With a zero word count the density branch is skipped entirely, so
the keyword segment can only hold the placement warning. -/
theorem mem_kwWarnings_wc0 {d : BlogDraft} {t : Option TopicSelection} {m : QMsg}
    (hwc : d.word_count = 0) (hm : m ∈ kwWarnings d t) :
    ∃ ms, m = QMsg.kwPlacement ms := by
  unfold kwWarnings at hm
  rcases t with _ | t
  · simp_all
  · simp only at hm
    split at hm
    · simp_all
    · rw [List.mem_append] at hm
      rcases hm with hm | hm
      · rw [hwc] at hm
        simp at hm
      · split at hm <;> simp_all

/-!
countP and membership lemmas over the assembled failure/warning lists.
-/

/-- How often the TL;DR failure occurs in the failures list: exactly
once when the bullet count differs from four, never otherwise. -/
theorem countP_isTldr_qcFailures (d : BlogDraft) :
    (qcFailures d).countP QMsg.isTldr = if d.tldr_bullets.length = 4 then 0 else 1 := by
  unfold qcFailures
  simp only [List.countP_append]
  have z : ∀ l : List QMsg, (∀ m ∈ l, QMsg.isTldr m = false) →
      l.countP QMsg.isTldr = 0 := by
    intro l hl
    rw [List.countP_eq_zero]
    intro a ha
    simp [hl a ha]
  rw [z (ktFailures d) (fun m hm => by rw [mem_ktFailures hm]; rfl)]
  rw [z (faqFailures d) (fun m hm => by rcases mem_faqFailures hm with ⟨n, rfl⟩; rfl)]
  rw [z (tableFailures d) (fun m hm => by rw [mem_tableFailures hm]; rfl)]
  rw [z (wcFailures d) (fun m hm => by rcases mem_wcFailures hm with ⟨n, rfl⟩; rfl)]
  rw [z (statFailures d) (fun m hm => by rcases mem_statFailures hm with ⟨a, b, rfl⟩; rfl)]
  rw [z (h1Failures d) (fun m hm => by rw [mem_h1Failures hm]; rfl)]
  unfold tldrFailures
  split
  · simp [QMsg.isTldr]
  · rename_i h
    rw [if_pos (by omega)]
    simp

/-- How often the placement warning occurs in the warnings list when a
keyword is supplied: exactly once when some checked location misses the
keyword, never otherwise. -/
theorem countP_isPlacement_kwWarnings (d : BlogDraft) (t : TopicSelection)
    (hkw : t.primary_keyword ≠ "") :
    (kwWarnings d (some t)).countP QMsg.isPlacement =
      if (missingPlacements d (lowerData t.primary_keyword.data)).isEmpty then 0 else 1 := by
  unfold kwWarnings
  simp only
  rw [if_neg hkw, List.countP_append]
  have hd : (if d.word_count > 0 then
      if 200 * (strCount (lowerData d.content_markdown.data) (lowerData t.primary_keyword.data) *
            (pyWords (lowerData t.primary_keyword.data)).length) < d.word_count then
        [QMsg.kwDensityLow (String.mk (lowerData t.primary_keyword.data))
          (strCount (lowerData d.content_markdown.data) (lowerData t.primary_keyword.data))]
      else if 50 * (strCount (lowerData d.content_markdown.data) (lowerData t.primary_keyword.data) *
            (pyWords (lowerData t.primary_keyword.data)).length) > d.word_count then
        [QMsg.kwDensityHigh (String.mk (lowerData t.primary_keyword.data))
          (strCount (lowerData d.content_markdown.data) (lowerData t.primary_keyword.data))]
      else []
    else []).countP QMsg.isPlacement = 0 := by
    split
    · split
      · simp [QMsg.isPlacement]
      · split <;> simp [QMsg.isPlacement]
    · simp
  rw [hd]
  split <;> simp [QMsg.isPlacement]

/-- The placement count over the full warnings list. -/
theorem countP_isPlacement_qcWarnings (d : BlogDraft) (t : TopicSelection)
    (hkw : t.primary_keyword ≠ "") :
    (qcWarnings d (some t)).countP QMsg.isPlacement =
      if (missingPlacements d (lowerData t.primary_keyword.data)).isEmpty then 0 else 1 := by
  unfold qcWarnings
  simp only [List.countP_append]
  rw [countP_isPlacement_kwWarnings d t hkw]
  have z : ∀ l : List QMsg, (∀ m ∈ l, QMsg.isPlacement m = false) →
      l.countP QMsg.isPlacement = 0 := by
    intro l hl
    rw [List.countP_eq_zero]
    intro a ha
    simp [hl a ha]
  rw [z (ktWarnings d) (fun m hm => by rcases mem_ktWarnings hm with ⟨n, rfl⟩; rfl)]
  rw [z (wcWarnings d) (fun m hm => by rcases mem_wcWarnings hm with ⟨n, rfl⟩; rfl)]
  rw [z (metaWarnings d)
    (fun m hm => by rcases mem_metaWarnings hm with ⟨n, rfl⟩ | ⟨n, rfl⟩ <;> rfl)]
  rw [z (h1Warnings d) (fun m hm => by rcases mem_h1Warnings hm with ⟨n, rfl⟩; rfl)]
  rw [z (h2Warnings d)
    (fun m hm => by rcases mem_h2Warnings hm with ⟨n, rfl⟩ | ⟨n, rfl⟩ <;> rfl)]
  rw [z (skipWarnings d) (fun m hm => by rcases mem_skipWarnings hm with ⟨p, c, i, rfl⟩; rfl)]
  rw [z (seoWarnings d)
    (fun m hm => by rcases mem_seoWarnings hm with ⟨n, rfl⟩ | ⟨n, rfl⟩ <;> rfl)]
  rw [z (linkWarnings d) (fun m hm => by rcases mem_linkWarnings hm with ⟨a, b, rfl⟩; rfl)]
  split <;> omega

/-- When some checked location misses the keyword, the combined
placement warning carrying the missing list is in the warnings. -/
theorem kwPlacement_mem_qcWarnings (d : BlogDraft) (t : TopicSelection)
    (hkw : t.primary_keyword ≠ "")
    (hne : (missingPlacements d (lowerData t.primary_keyword.data)).isEmpty = false) :
    QMsg.kwPlacement (missingPlacements d (lowerData t.primary_keyword.data)) ∈
      qcWarnings d (some t) := by
  unfold qcWarnings
  simp only [List.mem_append, or_assoc]
  refine Or.inr (Or.inr (Or.inr (Or.inr (Or.inr (Or.inr (Or.inl ?_))))))
  unfold kwWarnings
  simp only
  rw [if_neg hkw]
  rw [List.mem_append]
  refine Or.inr ?_
  rw [if_neg (by simp [hne])]
  simp

/-- No failure message is ever a placement message. -/
theorem no_placement_in_failures (d : BlogDraft) :
    ∀ m ∈ qcFailures d, QMsg.isPlacement m = false := by
  intro m hm
  unfold qcFailures at hm
  simp only [List.mem_append, or_assoc] at hm
  rcases hm with hm | hm | hm | hm | hm | hm | hm
  · rw [mem_ktFailures hm]; rfl
  · rcases mem_faqFailures hm with ⟨n, rfl⟩; rfl
  · rw [mem_tableFailures hm]; rfl
  · rcases mem_wcFailures hm with ⟨n, rfl⟩; rfl
  · rcases mem_statFailures hm with ⟨a, b, rfl⟩; rfl
  · rcases mem_tldrFailures hm with ⟨n, rfl⟩; rfl
  · rw [mem_h1Failures hm]; rfl

/-!
TL;DR extraction lemmas.
-/

theorem strContains_cons (c : Char) (t n : List Char) :
    strContains (c :: t) n = (n.isPrefixOf (c :: t) || strContains t n) := rfl

/-- The case-insensitive prefix test agrees with the exact prefix test
after lowercasing both sides. -/
theorem isPrefixCI_eq_lower (n h : List Char) :
    isPrefixCI n h = (lowerData n).isPrefixOf (lowerData h) := by
  induction n generalizing h with
  | nil => simp [isPrefixCI, lowerData, List.isPrefixOf]
  | cons a as ih =>
    cases h with
    | nil => simp [isPrefixCI, lowerData, List.isPrefixOf]
    | cons b bs =>
      simp only [isPrefixCI, lowerData, List.map_cons, List.isPrefixOf, ih bs]
      by_cases hab : a.toLower = b.toLower <;> simp [hab, lowerData]

/-- Text without any case-insensitive TLDR or TL;DR occurrence yields no
TL;DR bullets. -/
theorem extractTldrAux_eq_nil (cs : List Char)
    (h5 : strContains (lowerData cs) ['t', 'l', ';', 'd', 'r'] = false)
    (h4 : strContains (lowerData cs) ['t', 'l', 'd', 'r'] = false) :
    extractTldrAux cs = [] := by
  induction cs with
  | nil => rfl
  | cons c t ih =>
    rw [show lowerData (c :: t) = c.toLower :: lowerData t from rfl] at h5 h4
    rw [strContains_cons] at h5 h4
    simp only [Bool.or_eq_false_iff] at h5 h4
    have hm : matchTldrLit (c :: t) = none := by
      unfold matchTldrLit
      rw [isPrefixCI_eq_lower, isPrefixCI_eq_lower]
      rw [show lowerData ['t', 'l', ';', 'd', 'r'] = ['t', 'l', ';', 'd', 'r'] from rfl]
      rw [show lowerData ['t', 'l', 'd', 'r'] = ['t', 'l', 'd', 'r'] from rfl]
      rw [show lowerData (c :: t) = c.toLower :: lowerData t from rfl]
      simp [h5.1, h4.1]
    have hb : tldrBulletsAt (c :: t) = none := by
      unfold tldrBulletsAt
      rw [hm]
    simp only [extractTldrAux, hb]
    exact ih h5.2 h4.2

/-!
Claim theorems over the quality gate.
-/

/-- C3: quality_check returns its verdict as data for every draft and
topic (it is a total function), and the passes flag is true exactly when
the failures list is empty — the warnings list never enters the
verdict. -/
theorem claim_C3_passes_iff_no_failures (d : BlogDraft) (t : Option TopicSelection) :
    (quality_check d t).passes = true ↔ (quality_check d t).failures = [] := by
  simp [List.length_eq_zero]

/-- C5: the statistic-density failure, carrying the total match count of
the four numeric patterns and the expected minimum word_count / 175, is
emitted exactly when that count is strictly below the expected
minimum. -/
theorem claim_C5_stat_density_failure_iff (d : BlogDraft) (t : Option TopicSelection) :
    QMsg.statDensity (count_statistics d.content_markdown) (d.word_count / 175) ∈
        (quality_check d t).failures ↔
      count_statistics d.content_markdown < d.word_count / 175 := by
  rw [quality_check_failures]
  unfold qcFailures
  simp only [List.mem_append, or_assoc]
  constructor
  · intro h
    rcases h with h | h | h | h | h | h | h
    · have := mem_ktFailures h; simp_all
    · rcases mem_faqFailures h with ⟨n, hn⟩; simp_all
    · have := mem_tableFailures h; simp_all
    · rcases mem_wcFailures h with ⟨n, hn⟩; simp_all
    · unfold statFailures at h; split at h <;> simp_all
    · rcases mem_tldrFailures h with ⟨n, hn⟩; simp_all
    · have := mem_h1Failures h; simp_all
  · intro h
    refine Or.inr (Or.inr (Or.inr (Or.inr (Or.inl ?_))))
    simp [statFailures, h]

/-- C9: on a draft with word count zero the keyword-density computation
is skipped entirely (the guard protects the division), so no density
warning of either direction is emitted. -/
theorem claim_C9_no_density_warning_on_zero_wc (d : BlogDraft) (t : TopicSelection)
    (hwc : d.word_count = 0) (hkw : t.primary_keyword ≠ "") :
    (quality_check d (some t)).warnings.countP QMsg.isDensity = 0 := by
  clear hkw
  rw [quality_check_warnings, List.countP_eq_zero]
  intro m hm
  unfold qcWarnings at hm
  simp only [List.mem_append, or_assoc] at hm
  rcases hm with hm | hm | hm | hm | hm | hm | hm | hm | hm
  · rcases mem_ktWarnings hm with ⟨n, rfl⟩; simp [QMsg.isDensity]
  · rcases mem_wcWarnings hm with ⟨n, rfl⟩; simp [QMsg.isDensity]
  · rcases mem_metaWarnings hm with ⟨n, rfl⟩ | ⟨n, rfl⟩ <;> simp [QMsg.isDensity]
  · rcases mem_h1Warnings hm with ⟨n, rfl⟩; simp [QMsg.isDensity]
  · rcases mem_h2Warnings hm with ⟨n, rfl⟩ | ⟨n, rfl⟩ <;> simp [QMsg.isDensity]
  · rcases mem_skipWarnings hm with ⟨p, c, i, rfl⟩; simp [QMsg.isDensity]
  · rcases mem_kwWarnings_wc0 hwc hm with ⟨ms, rfl⟩; simp [QMsg.isDensity]
  · rcases mem_seoWarnings hm with ⟨n, rfl⟩ | ⟨n, rfl⟩ <;> simp [QMsg.isDensity]
  · rcases mem_linkWarnings hm with ⟨a, b, rfl⟩; simp [QMsg.isDensity]

/-- Concrete topic for the C9 witness. -/
def c9Topic : TopicSelection :=
  { topic := "t", primary_keyword := "growth", secondary_keywords := [],
    format_type := "data_insight" }

/-- Witness for C9 at a concrete zero-word-count draft and non-empty
keyword. -/
theorem claim_C9_witness :
    emptyDraft.word_count = 0 ∧ c9Topic.primary_keyword ≠ "" ∧
      (quality_check emptyDraft (some c9Topic)).warnings.countP QMsg.isDensity = 0 :=
  ⟨rfl, by decide,
    claim_C9_no_density_warning_on_zero_wc emptyDraft c9Topic rfl (by decide)⟩

/-- C4, counterexample to the claim as stated: the extraction regex is
not anchored to headings — the text "tldr" followed by a bullet line,
with no heading anywhere, still yields a non-empty bullet list, so a
document with no TL;DR heading need not produce an empty list. -/
theorem claim_C4_counterexample :
    hasTldrHeading "tldr\n- a\n" = false ∧ extract_tldr "tldr\n- a\n" = ["a"] := by
  decide

/-- C4, amended: for markdown with no case-insensitive occurrence of
TLDR or TL;DR anywhere (not merely no such heading), extraction yields
an empty bullet list and the gate, on a draft with those bullets,
reports exactly one TL;DR failure carrying bullet count 0, whose
rendered text mentions TL;DR; in general the TL;DR failure fires exactly
when the bullet count differs from four. -/
theorem claim_C4_amended (raw : String) (d : BlogDraft) (t : Option TopicSelection)
    (hb : d.tldr_bullets = extract_tldr raw) :
    (noTldrMention raw = true →
        extract_tldr raw = [] ∧
        (quality_check d t).failures.countP QMsg.isTldr = 1 ∧
        QMsg.tldrCount 0 ∈ (quality_check d t).failures ∧
        strContains (renderFailure (QMsg.tldrCount 0)).data "TL;DR".data = true) ∧
    ((∃ n, QMsg.tldrCount n ∈ (quality_check d t).failures) ↔
        d.tldr_bullets.length ≠ 4) := by
  constructor
  · intro hno
    unfold noTldrMention strContainsCI at hno
    simp only [Bool.and_eq_true, Bool.not_eq_true'] at hno
    have hnil : extract_tldr raw = [] := by
      unfold extract_tldr
      exact extractTldrAux_eq_nil raw.data
        (by
          have h2 := hno.2
          rw [show lowerData ['t', 'l', ';', 'd', 'r'] = ['t', 'l', ';', 'd', 'r'] from rfl] at h2
          exact h2)
        (by
          have h1 := hno.1
          rw [show lowerData ['t', 'l', 'd', 'r'] = ['t', 'l', 'd', 'r'] from rfl] at h1
          exact h1)
    refine ⟨hnil, ?_, ?_, by decide⟩
    · rw [quality_check_failures, countP_isTldr_qcFailures, hb, hnil]
      simp
    · rw [quality_check_failures]
      unfold qcFailures
      simp only [List.mem_append, or_assoc]
      refine Or.inr (Or.inr (Or.inr (Or.inr (Or.inr (Or.inl ?_)))))
      unfold tldrFailures
      rw [hb, hnil]
      simp
  · constructor
    · rintro ⟨n, hn⟩
      by_contra h4
      have hc := countP_isTldr_qcFailures d
      rw [if_pos h4] at hc
      have hpos : 0 < (qcFailures d).countP QMsg.isTldr :=
        List.countP_pos_iff.mpr ⟨QMsg.tldrCount n, by simpa using hn, by simp [QMsg.isTldr]⟩
      omega
    · intro hne
      refine ⟨d.tldr_bullets.length, ?_⟩
      rw [quality_check_failures]
      unfold qcFailures
      simp only [List.mem_append, or_assoc]
      refine Or.inr (Or.inr (Or.inr (Or.inr (Or.inr (Or.inl ?_)))))
      unfold tldrFailures
      rw [if_pos hne]
      simp

/-- Witness for C4 at a concrete TLDR-free input. -/
theorem claim_C4_witness :
    extract_tldr "no bullets here" = [] ∧
      (quality_check { emptyDraft with tldr_bullets := extract_tldr "no bullets here" }
          none).failures.countP QMsg.isTldr = 1 ∧
      QMsg.tldrCount 0 ∈
        (quality_check { emptyDraft with tldr_bullets := extract_tldr "no bullets here" }
          none).failures ∧
      strContains (renderFailure (QMsg.tldrCount 0)).data "TL;DR".data = true :=
  (claim_C4_amended "no bullets here"
      { emptyDraft with tldr_bullets := extract_tldr "no bullets here" } none rfl).1
    (by decide)

/-- Concrete draft for the C6 counterexample: the keyword is present in
the first hundred words, in a level-2 heading and in an FAQ question,
while the meta description is empty. -/
def c6Draft : BlogDraft :=
  { emptyDraft with
    content_markdown := "pipeline intro\n\n## pipeline tips\nmore text here",
    faq_items := [{ question := "why pipeline", answer := "ans" }] }

/-- Concrete topic for the C6 counterexample. -/
def c6Topic : TopicSelection :=
  { topic := "t", primary_keyword := "pipeline", secondary_keywords := [],
    format_type := "data_insight" }

/-- C6, counterexample to the claim as stated: with an empty meta
description the keyword is (vacuously) absent from the meta description,
yet the gate skips that check entirely — it emits no placement warning
at all instead of one naming the meta description. -/
theorem claim_C6_counterexample :
    strContains (lowerData c6Draft.meta_description.data)
        (lowerData c6Topic.primary_keyword.data) = false ∧
      c6Topic.primary_keyword ≠ "" ∧
      (quality_check c6Draft (some c6Topic)).warnings.countP QMsg.isPlacement = 0 := by
  decide

/-- C6, amended: with a non-empty primary keyword the gate checks the
keyword's case-insensitive presence in the first hundred words, the
level-2 headings, the meta description (only when non-empty) and the
concatenated FAQ questions (only when the FAQ list is non-empty); when
any checked location misses it, exactly one combined warning carrying
all the missing locations is emitted, and never a failure. -/
theorem claim_C6_amended (d : BlogDraft) (t : TopicSelection)
    (hkw : t.primary_keyword ≠ "") :
    ((quality_check d (some t)).warnings.countP QMsg.isPlacement =
        if (missingPlacements d (lowerData t.primary_keyword.data)).isEmpty then 0 else 1) ∧
      ((missingPlacements d (lowerData t.primary_keyword.data)).isEmpty = false →
        QMsg.kwPlacement (missingPlacements d (lowerData t.primary_keyword.data)) ∈
          (quality_check d (some t)).warnings) ∧
      (∀ m ∈ (quality_check d (some t)).failures, QMsg.isPlacement m = false) := by
  refine ⟨?_, ?_, ?_⟩
  · rw [quality_check_warnings]
    exact countP_isPlacement_qcWarnings d t hkw
  · intro hne
    rw [quality_check_warnings]
    exact kwPlacement_mem_qcWarnings d t hkw hne
  · intro m hm
    rw [quality_check_failures] at hm
    exact no_placement_in_failures d m hm

/-- Concrete topic for the C6 witness (the empty draft misses the
keyword in the first hundred words and in the headings, while the empty
meta description and FAQ list are skipped). -/
def c6WitnessTopic : TopicSelection :=
  { topic := "t", primary_keyword := "growth", secondary_keywords := [],
    format_type := "data_insight" }

/-- Witness for C6 at a concrete draft and keyword. -/
theorem claim_C6_witness :
    c6WitnessTopic.primary_keyword ≠ "" ∧
      (((quality_check emptyDraft (some c6WitnessTopic)).warnings.countP QMsg.isPlacement =
          if (missingPlacements emptyDraft
              (lowerData c6WitnessTopic.primary_keyword.data)).isEmpty then 0 else 1) ∧
        ((missingPlacements emptyDraft
            (lowerData c6WitnessTopic.primary_keyword.data)).isEmpty = false →
          QMsg.kwPlacement (missingPlacements emptyDraft
              (lowerData c6WitnessTopic.primary_keyword.data)) ∈
            (quality_check emptyDraft (some c6WitnessTopic)).warnings) ∧
        (∀ m ∈ (quality_check emptyDraft (some c6WitnessTopic)).failures,
          QMsg.isPlacement m = false)) :=
  ⟨by decide, claim_C6_amended emptyDraft c6WitnessTopic (by decide)⟩

/-!
ContentEngine.strip_reddit_section.  The published HTML is a sequence of
sibling block elements; headings carry their level and text, everything
else is kept opaque.
-/

/-- One top-level element of the rendered HTML. -/
inductive BlockEl where
  | heading (level : Nat) (text : String)
  | block (html : String)
  deriving DecidableEq, Repr

/-- Is this a heading of the given level (same tag name as the matched
heading)? -/
def BlockEl.isHeadingOf (lvl : Nat) : BlockEl → Bool
  | .heading l _ => l == lvl
  | .block _ => false

/-- Level of a heading (dummy zero for non-headings). -/
def BlockEl.level : BlockEl → Nat
  | .heading l _ => l
  | .block _ => 0

/-- The marker test of strip_reddit_section: a heading of level 2-4
whose lowercased text contains the word reddit together with cross-post
or cross post. -/
def isRedditHeading : BlockEl → Bool
  | .heading lvl txt =>
    (decide (2 ≤ lvl) && decide (lvl ≤ 4)) &&
      (strContains (lowerData txt.data) "reddit".data &&
        (strContains (lowerData txt.data) "cross-post".data ||
          strContains (lowerData txt.data) "cross post".data))
  | .block _ => false

/-- Remove the following siblings of the matched heading up to but not
including the next heading of the same level (or the document end). -/
def dropSection (lvl : Nat) : List BlockEl → List BlockEl
  | [] => []
  | el :: rest =>
    if el.isHeadingOf lvl then el :: rest
    else dropSection lvl rest

/-- ContentEngine.strip_reddit_section: the first matching heading and
its section are removed; at most one section per pass. -/
def strip_reddit_section : List BlockEl → List BlockEl
  | [] => []
  | el :: rest =>
    if isRedditHeading el then dropSection el.level rest
    else el :: strip_reddit_section rest

/-- What strip_reddit_section does to a document: the part before the
first marker heading is kept verbatim, the marker heading and its
section (everything up to but not including the next same-level heading)
are removed, and the rest is kept verbatim; when no marker heading
exists nothing is removed. -/
def stripSpec (doc res : List BlockEl) : Prop :=
  ∃ pre mid suf,
    doc = pre ++ mid ++ suf ∧
    res = pre ++ suf ∧
    (∀ e ∈ pre, isRedditHeading e = false) ∧
    ((mid = [] ∧ suf = []) ∨
      (∃ h mids, mid = h :: mids ∧ isRedditHeading h = true ∧
        (∀ e ∈ mids, e.isHeadingOf h.level = false) ∧
        (suf = [] ∨ ∃ s suf2, suf = s :: suf2 ∧ s.isHeadingOf h.level = true)))

/-- dropSection splits its input into a dropped prefix without
same-level headings and a kept suffix starting at one (or empty). -/
theorem dropSection_split (lvl : Nat) (rest : List BlockEl) :
    ∃ mids suf, rest = mids ++ suf ∧ dropSection lvl rest = suf ∧
      (∀ e ∈ mids, e.isHeadingOf lvl = false) ∧
      (suf = [] ∨ ∃ s suf2, suf = s :: suf2 ∧ s.isHeadingOf lvl = true) := by
  induction rest with
  | nil => exact ⟨[], [], rfl, rfl, by simp, Or.inl rfl⟩
  | cons el rest ih =>
    by_cases hel : el.isHeadingOf lvl = true
    · refine ⟨[], el :: rest, rfl, ?_, by simp, Or.inr ⟨el, rest, rfl, hel⟩⟩
      unfold dropSection
      rw [if_pos hel]
    · rcases ih with ⟨mids, suf, heq, hdrop, hmids, hsuf⟩
      refine ⟨el :: mids, suf, by simp [heq], ?_, ?_, hsuf⟩
      · unfold dropSection
        rw [if_neg hel]
        exact hdrop
      · intro e he
        rcases List.mem_cons.mp he with rfl | he2
        · simpa using hel
        · exact hmids e he2

/-- C7: strip_reddit_section removes at most one cross-post section —
the first heading of level 2-4 containing the marker phrase together
with every following sibling up to but not including the next heading of
the same level — and keeps all other content verbatim; on the spec's
scenario document it removes exactly the marker heading and the
following paragraph. -/
theorem claim_C7_strip_reddit_section :
    (∀ doc : List BlockEl, stripSpec doc (strip_reddit_section doc)) ∧
      strip_reddit_section
          [BlockEl.heading 2 "Reddit Cross-Post", BlockEl.block "<p>internal notes</p>",
           BlockEl.heading 2 "Next", BlockEl.block "<p>kept</p>"] =
        [BlockEl.heading 2 "Next", BlockEl.block "<p>kept</p>"] := by
  constructor
  · intro doc
    induction doc with
    | nil => exact ⟨[], [], [], rfl, rfl, by simp, Or.inl ⟨rfl, rfl⟩⟩
    | cons el rest ih =>
      by_cases hel : isRedditHeading el = true
      · rcases dropSection_split el.level rest with ⟨mids, suf, heq, hdrop, hmids, hsuf⟩
        refine ⟨[], el :: mids, suf, by simp [heq], ?_, by simp, ?_⟩
        · unfold strip_reddit_section
          rw [if_pos hel]
          simpa using hdrop
        · exact Or.inr ⟨el, mids, rfl, hel, hmids, hsuf⟩
      · rcases ih with ⟨pre, mid, suf, heq, hres, hpre, hshape⟩
        refine ⟨el :: pre, mid, suf, by simp [heq], ?_, ?_, hshape⟩
        · unfold strip_reddit_section
          rw [if_neg hel, hres]
          simp
        · intro e he
          rcases List.mem_cons.mp he with rfl | he2
          · simpa using hel
          · exact hpre e he2
  · decide

/-!
SchemaBuilder.build_full_graph (schema_builder.py).  The JSON node
templates (templates/article-template.json and friends) are not part of
the source tree, so the node contents are modelled from the spec: each
node is represented by its @type tag with the data rendered into it,
while the assembly order and the presence guards come from the source.
-/

/-- One HowTo step. -/
structure HowtoStep where
  title : String
  description : String
  deriving DecidableEq, Repr

/-- The post_data mapping handed to build_full_graph (the fields the
graph assembly reads; howto_steps is empty when the orchestrator passes
None). -/
structure SchemaPostData where
  post_url : String
  post_title : String
  meta_description : String
  word_count : Nat
  smartscaling_pillar : String
  smartscaling_function : String
  faq_items : List FaqItem
  howto_steps : List HowtoStep
  deriving DecidableEq, Repr

/-- Modelled from the spec: a JSON-LD node tagged with its @type (the
concrete JSON fields live in template files outside the source tree). -/
inductive SchemaNode where
  | article (headline : String) (wordCount : Nat)
  | breadcrumb (pillar cluster postTitle : String)
  | faqPage (items : List FaqItem)
  | howTo (name : String) (steps : List HowtoStep)
  deriving DecidableEq, Repr

/-- Modelled from the spec: build_article_schema renders the Article
template from the post data. -/
def build_article_schema (pd : SchemaPostData) : SchemaNode :=
  .article pd.post_title pd.word_count

/-- Modelled from the spec: build_breadcrumb_schema renders the
breadcrumb chain for the pillar, cluster and post title. -/
def build_breadcrumb_schema (pillar cluster postTitle : String) : SchemaNode :=
  .breadcrumb pillar cluster postTitle

/-- Modelled from the spec: build_faq_schema renders one Question per
FAQ item, order preserved. -/
def build_faq_schema (faq_items : List FaqItem) : SchemaNode :=
  .faqPage faq_items

/-- build_howto_schema returns an empty dict — here none — when the
step list is empty, otherwise the rendered HowTo node. -/
def build_howto_schema (title : String) (steps : List HowtoStep) : Option SchemaNode :=
  if steps.isEmpty then none else some (.howTo title steps)

/-- The full JSON-LD document: context plus ordered node list. -/
structure SchemaGraph where
  context : String
  graph : List SchemaNode
  deriving DecidableEq, Repr

/-- SchemaBuilder.build_full_graph: Article, then BreadcrumbList, then
FAQPage when faq_items is non-empty, then HowTo when howto_steps is
non-empty (the HowTo append additionally goes through
build_howto_schema's own emptiness check and the falsy-dict test). -/
def build_full_graph (pd : SchemaPostData) : SchemaGraph :=
  { context := "https://schema.org",
    graph :=
      ([build_article_schema pd] ++
          [build_breadcrumb_schema pd.smartscaling_pillar pd.smartscaling_function
            pd.post_title]) ++
        (if pd.faq_items.isEmpty then [] else [build_faq_schema pd.faq_items]) ++
        (if pd.howto_steps.isEmpty then []
         else
           match build_howto_schema pd.post_title pd.howto_steps with
           | some h => [h]
           | none => []) }

/-- C8: the graph always starts with the Article node, always contains
the BreadcrumbList node, contains a FAQPage node iff the FAQ list is
non-empty and a HowTo node iff the step list is non-empty, in the fixed
order Article, Breadcrumb, FAQPage, HowTo. -/
theorem claim_C8_full_graph_shape (pd : SchemaPostData) :
    (build_full_graph pd).graph.head? = some (build_article_schema pd) ∧
      build_breadcrumb_schema pd.smartscaling_pillar pd.smartscaling_function pd.post_title ∈
        (build_full_graph pd).graph ∧
      ((∃ items, SchemaNode.faqPage items ∈ (build_full_graph pd).graph) ↔
        pd.faq_items ≠ []) ∧
      ((∃ nm st, SchemaNode.howTo nm st ∈ (build_full_graph pd).graph) ↔
        pd.howto_steps ≠ []) ∧
      (build_full_graph pd).graph =
        [build_article_schema pd,
         build_breadcrumb_schema pd.smartscaling_pillar pd.smartscaling_function pd.post_title] ++
          (if pd.faq_items.isEmpty then [] else [SchemaNode.faqPage pd.faq_items]) ++
          (if pd.howto_steps.isEmpty then []
           else [SchemaNode.howTo pd.post_title pd.howto_steps]) := by
  unfold build_full_graph build_howto_schema
  refine ⟨rfl, ?_, ?_, ?_, ?_⟩
  · simp [build_breadcrumb_schema]
  · by_cases hf : pd.faq_items.isEmpty <;>
      simp_all [build_faq_schema, build_article_schema, build_breadcrumb_schema,
        List.isEmpty_iff]
  · by_cases hh : pd.howto_steps.isEmpty <;>
      simp_all [build_faq_schema, build_article_schema, build_breadcrumb_schema,
        List.isEmpty_iff]
  · by_cases hf : pd.faq_items.isEmpty <;> by_cases hh : pd.howto_steps.isEmpty <;>
      simp_all [build_faq_schema, List.isEmpty_iff]

/-!
The Content Rewriter document model.  BeautifulSoup documents are
represented flat: anchors (href plus visible text) and text nodes tagged
with the name of their parent element, in document order.
-/

/-- One node of the parsed HTML document. -/
inductive HItem where
  | aTag (href : String) (txt : String)
  | txtN (parent : String) (s : String)
  deriving DecidableEq, Repr

/-!
ContentEngine.normalize_ctas.  Pass 1 walks the parsed anchors and
rewrites every anchor classified as a call to action to the canonical
destination and label.  Pass 2 is a re.sub over the serialized soup
string: every complete raw CTA marker, wherever it sits in the markup —
attribute values included — is replaced by the canonical anchor markup,
and the resulting string is returned.
-/

/-- Canonical CTA destination. -/
def CTA_URL : String := "https://revheat.com/#Calendar"

/-- Canonical CTA label. -/
def CTA_TEXT : String := "Talk to the RevHeat Team"

/-- Href patterns identifying CTA links. -/
def ctaHrefPatterns : List String :=
  ["sales-alpha-roadmap", "#cta", "link-to-cta", "/roadmap", "founder-call",
   "link)", "(link"]

/-- Visible-text patterns identifying CTA links. -/
def ctaAnchorPatterns : List String :=
  ["sales alpha roadmap", "get the roadmap", "get your", "book a consultation",
   "book a 20-minute", "schedule a", "get started", "free diagnostic", "cta:"]

/-- CTA classification of an anchor: lowercased href or lowercased
visible text contains one of the fixed patterns. -/
def isCtaLink (href txt : String) : Bool :=
  ctaHrefPatterns.any (fun p => strContains (lowerData href.data) p.data) ||
    ctaAnchorPatterns.any (fun p => strContains (lowerData txt.data) p.data)

/-- Pass 1 on one node: a CTA anchor gets the canonical destination and
label. -/
def rewriteCtaItem : HItem → HItem
  | .aTag href txt => if isCtaLink href txt then .aTag CTA_URL CTA_TEXT else .aTag href txt
  | .txtN p s => .txtN p s

/-- Pass 1 over the document. -/
def rewriteCtas (doc : List HItem) : List HItem := doc.map rewriteCtaItem

/-- The characters opening a raw CTA marker. -/
def markerOpen : List Char := ['[', 'C', 'T', 'A', ':']

/-- Drop the marker body up to and including the first closing bracket. -/
def splitAtClose : List Char → Option (List Char)
  | [] => none
  | c :: t => if c = ']' then some t else splitAtClose t

/-- First complete raw CTA marker in a string: the text before it and
the text after its closing bracket.  When the first marker opening has
no closing bracket anywhere to its right, no marker further right can be
complete either, so the result is none, exactly as the regex finds no
match. -/
def findMarker : List Char → Option (List Char × List Char)
  | [] => none
  | c :: t =>
    if markerOpen.isPrefixOf (c :: t) then
      match splitAtClose ((c :: t).drop 5) with
      | some rest => some ([], rest)
      | none => none
    else (findMarker t).map (fun p => (c :: p.1, p.2))

/-- Serialize one node back to markup: anchors as their tag form, text
nodes as their text.  The enclosing tags around text nodes and the
entity escaping bs4 would apply to special characters lie outside this
fragment model; the markup considered here contains none of either. -/
def serializeItem : HItem → List Char
  | .aTag h t => ("<a href=\"" ++ h ++ "\">" ++ t ++ "</a>").data
  | .txtN _ s => s.data

/-- The serialized soup: the concatenated markup of the nodes. -/
def serializeDoc (doc : List HItem) : String := String.mk (doc.flatMap serializeItem)

/-- The canonical anchor markup substituted for each raw marker. -/
def ctaAnchorMarkup : List Char :=
  ("<a href=\"" ++ CTA_URL ++ "\">" ++ CTA_TEXT ++ "</a>").data

/-- Pass 2, the string-level re.sub: every complete marker anywhere in
the serialized markup — attribute values included — is replaced by the
canonical anchor markup.  The fuel argument (string length is enough:
every replacement consumes the marker, at least six characters, from the
remainder) only bounds the recursion. -/
def markerSubAux : Nat → List Char → List Char
  | 0, cs => cs
  | fuel + 1, cs =>
    match findMarker cs with
    | none => cs
    | some (b, rest) => b ++ ctaAnchorMarkup ++ markerSubAux fuel rest

/-- Pass 2 on the serialized HTML string. -/
def markerSub (s : String) : String := String.mk (markerSubAux s.data.length s.data)

/-- ContentEngine.normalize_ctas on a parsed document: pass 1 over the
anchors, serialization, then the string-level marker substitution; the
returned HTML string is the function's result (the parse producing the
document belongs to the external BeautifulSoup collaborator). -/
def normalize_ctas (doc : List HItem) : String :=
  markerSub (serializeDoc (rewriteCtas doc))

/-- C2, evaluation at the failing input: on the document for the markup
with a raw CTA marker inside an href attribute value, pass 1 leaves the
anchor alone — no CTA pattern matches its href or its text — so pass 2
substitutes the canonical anchor markup inside the attribute value,
nesting an anchor tag within the href.  The first run therefore emits
broken markup instead of the no-further-change canonical form the claim
requires; re-parsing it turns the attribute remnants into stray
attributes that the second run serializes differently. -/
theorem claim_C2_marker_in_attribute :
    rewriteCtas [HItem.aTag "[CTA: x]" "click"] = [HItem.aTag "[CTA: x]" "click"] ∧
      serializeDoc [HItem.aTag "[CTA: x]" "click"] = "<a href=\"[CTA: x]\">click</a>" ∧
      normalize_ctas [HItem.aTag "[CTA: x]" "click"] =
        "<a href=\"<a href=\"https://revheat.com/#Calendar\">Talk to the RevHeat Team</a>\">click</a>" := by
  decide

/-!
ContentEngine.inject_planned_links and ContentEngine.build_internal_links.
-/

/-- One candidate existing post (title already unwrapped from the
rendered form, link URL). -/
structure PostRef where
  title : String
  link : String
  deriving DecidableEq, Repr

/-- Stop words removed from titles before keyword-phrase extraction. -/
def stop_words : List String :=
  ["the", "a", "an", "is", "are", "was", "were", "how", "why", "what", "your", "you"]

/-- Sliding n-word windows over the word list, joined with spaces. -/
def windowsJoin (n : Nat) : List (List Char) → List (List Char)
  | [] => []
  | w :: ws =>
    if (w :: ws).length < n then []
    else joinSpace ((w :: ws).take n) :: windowsJoin n ws

/-- ContentEngine._extract_link_keywords: drop stop words, build 3-word
then 2-word phrases, keep those longer than 8 characters, first three. -/
def extract_link_keywords (title : String) : List String :=
  let words := (pyWords title.data).filter
    (fun w => !(stop_words.any (fun s => s.data == lowerData w)))
  (((windowsJoin 3 words ++ windowsJoin 2 words).filter
      (fun p => p.length > 8)).map String.mk).take 3

/-- Parents inside which no link is injected. -/
def forbiddenParents : List String := ["a", "h1", "h2", "h3", "h4", "script"]

/-- Reactive injection of one keyword: the source searches text nodes
case-insensitively but replaces case-sensitively (str.replace), so the
first node with an allowed parent that contains the keyword exactly is
split around the first occurrence; differently-cased matches fail the
no-op test and the scan moves on.  none when no node takes the link. -/
def injectKeyword (kw url : String) : List HItem → Option (List HItem)
  | [] => none
  | HItem.aTag h t :: rest =>
    (injectKeyword kw url rest).map (fun r => HItem.aTag h t :: r)
  | HItem.txtN p s :: rest =>
    if forbiddenParents.contains p then
      (injectKeyword kw url rest).map (fun r => HItem.txtN p s :: r)
    else
      match splitFirst s.data kw.data with
      | some (before, after) =>
        some ((if before.isEmpty then [] else [HItem.txtN p (String.mk before)]) ++
          (HItem.aTag url kw ::
            (if after.isEmpty then [] else [HItem.txtN p (String.mk after)])) ++ rest)
      | none => (injectKeyword kw url rest).map (fun r => HItem.txtN p s :: r)

/-- State threaded through the reactive pass: document, number of links
added, URLs linked by this pass. -/
structure LinkState where
  doc : List HItem
  linksAdded : Nat
  linkedUrls : List String
  deriving DecidableEq, Repr

/-- The keyword loop of build_internal_links for one post: each phrase
in turn (the source does not leave the keyword loop after a successful
injection), stopping only at the global cap. -/
def tryKeywords (url : String) (maxLinks : Nat) : List String → LinkState → LinkState
  | [], st => st
  | kw :: kws, st =>
    if st.linksAdded ≥ maxLinks then st
    else
      match injectKeyword kw url st.doc with
      | some doc2 =>
        tryKeywords url maxLinks kws
          { doc := doc2, linksAdded := st.linksAdded + 1,
            linkedUrls :=
              if st.linkedUrls.contains url then st.linkedUrls
              else st.linkedUrls ++ [url] }
      | none => tryKeywords url maxLinks kws st

/-- The post loop body of build_internal_links: stop at the cap, skip
posts with an empty or already-linked URL, otherwise try the keyword
phrases of the title. -/
def processPost (maxLinks : Nat) (st : LinkState) (post : PostRef) : LinkState :=
  if st.linksAdded ≥ maxLinks then st
  else if post.link = "" || st.linkedUrls.contains post.link then st
  else tryKeywords post.link maxLinks (extract_link_keywords post.title) st

/-- ContentEngine.build_internal_links on the parsed document (the
linked-URL set starts empty: links placed before this pass are not
tracked). -/
def build_internal_links_core (doc : List HItem) (posts : List PostRef)
    (maxLinks : Nat) : List HItem :=
  (posts.foldl (processPost maxLinks) { doc := doc, linksAdded := 0, linkedUrls := [] }).doc

/-- Configured site base URL (config default). -/
def site_url : String := "https://revheat.com"

/-- Resolve a planned link target: site-relative paths get the site base
URL, absolute URLs pass through. -/
def resolveTarget (target : String) : String :=
  match target.data with
  | '/' :: _ => site_url ++ target
  | _ => target

/-- Planned injection of one link record: the first case-insensitive
occurrence of the anchor text in a text node with an allowed parent is
wrapped; the visible text of the new link is the anchor as given in the
record.  At most one injection per record. -/
def injectPlannedOne (anchor url : String) : List HItem → List HItem
  | [] => []
  | HItem.aTag h t :: rest => HItem.aTag h t :: injectPlannedOne anchor url rest
  | HItem.txtN p s :: rest =>
    if forbiddenParents.contains p then
      HItem.txtN p s :: injectPlannedOne anchor url rest
    else
      match splitFirstCI s.data anchor.data with
      | some (before, after) =>
        (if before.isEmpty then [] else [HItem.txtN p (String.mk before)]) ++
          (HItem.aTag url anchor ::
            (if after.isEmpty then [] else [HItem.txtN p (String.mk after)])) ++ rest
      | none => HItem.txtN p s :: injectPlannedOne anchor url rest

/-- ContentEngine.inject_planned_links on the parsed document. -/
def inject_planned_links_core (doc : List HItem) (links : List PlannedLink) : List HItem :=
  links.foldl (fun d l => injectPlannedOne l.anchor (resolveTarget l.target) d) doc

/-- ContentEngine.inject_planned_links at the string level.  Parsing
and serialisation belong to the external BeautifulSoup collaborator and
are passed in; with an empty planned-link list the input string is
returned before any parsing happens. -/
def inject_planned_links (parseBS : String → List HItem)
    (serializeBS : List HItem → String) (content_html : String)
    (planned : List PlannedLink) : String :=
  if planned.isEmpty then content_html
  else serializeBS (inject_planned_links_core (parseBS content_html) planned)

/-- ContentEngine.build_internal_links at the string level; with an
empty candidate-post list the input string is returned before any
parsing happens.  maxLinks is the configured maximum (config default
five). -/
def build_internal_links (parseBS : String → List HItem)
    (serializeBS : List HItem → String) (content_html : String)
    (existing_posts : List PostRef) (maxLinks : Nat) : String :=
  if existing_posts.isEmpty then content_html
  else serializeBS (build_internal_links_core (parseBS content_html) existing_posts maxLinks)

/-- Number of anchors pointing at the given URL. -/
def countHrefs (url : String) (doc : List HItem) : Nat :=
  doc.countP fun it =>
    match it with
    | HItem.aTag h _ => h == url
    | HItem.txtN _ _ => false

/-- Document for the C1 failing input. -/
def c1Doc : List HItem :=
  [HItem.txtN "p" "Learn sales pipeline basics. Master Pipeline Management today."]

/-- Planned link of the C1 failing input. -/
def c1Planned : PlannedLink := { anchor := "sales pipeline", target := "/sales-pipeline/" }

/-- Candidate post of the C1 failing input, pointing at the same URL the
planned link resolves to. -/
def c1Post : PostRef :=
  { title := "Sales Pipeline Management", link := "https://revheat.com/sales-pipeline/" }

/-- C1, evaluation at the failing input: the planned pass links the URL
once, and the reactive pass — whose linked-URL set starts empty and so
never sees planned links — links the same URL again through a keyword
phrase of the post title, leaving two anchors with the same destination
in one document. -/
theorem claim_C1_duplicate_target_url :
    countHrefs "https://revheat.com/sales-pipeline/"
        (build_internal_links_core (inject_planned_links_core c1Doc [c1Planned])
          [c1Post] 5) = 2 := by
  decide

/-- C10: with an empty planned-link list or an empty candidate-post
list, the respective pass returns the exact input string, whatever the
parser and serialiser of the HTML collaborator do — in particular no
parse-and-reserialise normalisation touches it. -/
theorem claim_C10_empty_lists_identity (parseBS : String → List HItem)
    (serializeBS : List HItem → String) (html : String) (maxLinks : Nat) :
    inject_planned_links parseBS serializeBS html [] = html ∧
      build_internal_links parseBS serializeBS html [] maxLinks = html := by
  constructor <;> rfl

end RevHeat
